import Mathlib

/-!
Shallow embedding of the two MCP adapter servers of this repository:
`src/mcp/newrelic-mcp/server.py` and `src/mcp/slack-mcp/server.py`.

Modelling conventions (each definition is traceable to the named Python
function):

* Python exceptions are modelled with `Except`.  A tool function returns
  `Except String String`: `Except.ok s` is the string returned to the
  invocation harness, `Except.error m` is an exception with message `m`
  escaping the tool to the harness.
* Python `dict.get(key, default)` on JSON objects is modelled by records
  whose fields are `Option`-valued; `d[key]` (which raises `KeyError`) is
  modelled by a `match` that throws `PyError.keyError` when the field is
  `none`.
* Python truthiness checks (`if not api_key`, `if from_time`, `if oldest`,
  `if app.get("last_reported_at")`) on strings treat the empty string like
  an absent value; `py_str_opt` implements that collapse.  Truthiness
  checks on JSON objects (`if not app`, `if not data.get("metric_data")`)
  are modelled by `Option`-valued fields where `none` stands for an absent
  or empty (falsy) object.
* JSON numbers that the source only ever feeds to string interpolation
  (response times, throughputs, apdex scores, ...) are carried as the
  `String` that Python's interpolation would render for them.  Record ids
  are carried as `Option Int` (Python renders a missing `app.get("id")`
  as the text `None`).
* Slack message timestamps, which the source converts with
  `float(msg["ts"])` followed by `datetime.fromtimestamp(...)`, are
  carried as the whole number of seconds of the epoch value; the local
  timezone of `fromtimestamp` / the naive `utcnow` is modelled as UTC.
* The network is a parameter: each tool takes a `transport` function from
  the request it builds to the mocked raw response
  (`Except ... response`), so "no network call is attempted" is expressed
  as the output not depending on `transport`.
-/

namespace Mcp

/-- Python exception values that the two servers can raise internally. -/
inductive PyError where
  | valueError (msg : String)
  | keyError (key : String)
  | indexError (msg : String)
  | exception (msg : String)
  deriving Repr, DecidableEq

/-- Python `str(e)` for the exceptions above (`str` of a `KeyError` quotes
the missing key). -/
def pyStr : PyError → String
  | .valueError m => m
  | .keyError k => "\x27" ++ k ++ "\x27"
  | .indexError m => m
  | .exception m => m

/-- Python rendering of a `bool` in an f-string. -/
def py_bool (b : Bool) : String :=
  if b then "True" else "False"

/-- Python rendering of `app.get("id")` (no default): an absent key gives
`None`, a present integer renders as its decimal text. -/
def py_opt_int : Option Int → String
  | some i => toString i
  | none => "None"

/-- Python truthiness of an optional string: `None` and `""` are falsy.
Returns `some s` exactly when `if s:` would take the then-branch. -/
def py_str_opt : Option String → Option String
  | some s => if s.isEmpty then none else some s
  | none => none

/-- Two-digit zero padding, as produced by `strftime` / `isoformat`. -/
def pad2 (n : Nat) : String :=
  if n < 10 then "0" ++ toString n else toString n

/-- Civil date (year, month, day) of a day count since 1970-01-01
(proleptic Gregorian, the standard era-based algorithm used by C and
Python datetime implementations). -/
def daysToYMD (z0 : Nat) : Nat × Nat × Nat :=
  let z := z0 + 719468
  let era := z / 146097
  let doe := z % 146097
  let yoe := (doe - doe / 1460 + doe / 36524 - doe / 146096) / 365
  let y := yoe + era * 400
  let doy := doe - (365 * yoe + yoe / 4 - yoe / 100)
  let mp := (5 * doy + 2) / 153
  let d := doy - (153 * mp + 2) / 5 + 1
  let m := if mp < 10 then mp + 3 else mp - 9
  (if m ≤ 2 then y + 1 else y, m, d)

/-- `datetime.fromtimestamp(t).strftime("%Y-%m-%d %H:%M:%S")` for a
whole-second epoch `t` (timezone modelled as UTC). -/
def epochToYMDHMS (t : Nat) : String :=
  let ymd := daysToYMD (t / 86400)
  let s := t % 86400
  toString ymd.1 ++ "-" ++ pad2 ymd.2.1 ++ "-" ++ pad2 ymd.2.2 ++ " " ++
    pad2 (s / 3600) ++ ":" ++ pad2 (s % 3600 / 60) ++ ":" ++ pad2 (s % 60)

/-- `datetime.isoformat()` for a whole-second epoch (timezone modelled as
UTC, microseconds modelled as zero and omitted). -/
def iso_format (t : Nat) : String :=
  let ymd := daysToYMD (t / 86400)
  let s := t % 86400
  toString ymd.1 ++ "-" ++ pad2 ymd.2.1 ++ "-" ++ pad2 ymd.2.2 ++ "T" ++
    pad2 (s / 3600) ++ ":" ++ pad2 (s % 3600 / 60) ++ ":" ++ pad2 (s % 60)

/-- Concatenation of a list of strings (a Python loop appending to an
accumulator string produces exactly the concatenation of the pieces). -/
def joinStrings : List String → String
  | [] => ""
  | s :: rest => s ++ joinStrings rest

/-! ## newrelic-mcp/server.py -/

/-- `ensure_api_key` of `newrelic-mcp/server.py`: `if not api_key: raise
ValueError(...)`.  The module-level `api_key = os.getenv("NEWRELIC_API_KEY")`
is the `Option String` argument; Python truthiness makes `None` and the
empty string both trip the guard. -/
def ensure_api_key (api_key : Option String) : Except PyError Unit :=
  match py_str_opt api_key with
  | some _ => .ok ()
  | none => .error (.valueError
      "NewRelic API key not configured. Please set NEWRELIC_API_KEY environment variable.")

/-- `make_request` of `newrelic-mcp/server.py`.  `transport` stands for
`requests.get(url, headers=headers, params=params, timeout=30)` together
with `raise_for_status` and `.json()`: `Except.error cause` is a raised
`requests.exceptions.RequestException` with text `cause` (also covering
non-2xx statuses via `raise_for_status`), which the source re-raises as
`Exception("NewRelic API request failed: ...")`. -/
def make_request (api_key : Option String) (transport : Except String α) :
    Except PyError α :=
  match ensure_api_key api_key with
  | .error e => .error e
  | .ok _ =>
    match transport with
    | .ok r => .ok r
    | .error cause => .error (.exception ("NewRelic API request failed: " ++ cause))

/-- The boundary `try: ... except Exception as e: return errMark + str(e)`
wrapped around the body of every NewRelic tool. -/
def nr_boundary (errMark : String) (body : Except PyError String) : String :=
  match body with
  | .ok s => s
  | .error e => errMark ++ pyStr e

/-- `application_summary` object of an application record; values carried
as their Python interpolation text. -/
structure AppSummary where
  response_time : Option String
  throughput : Option String
  error_rate : Option String
  apdex_score : Option String
  deriving Repr, DecidableEq

/-- One record of the `applications` list of `/applications.json`.
`application_summary = none` models an absent or falsy (empty) summary
object, matching `if app.get("application_summary"):`. -/
structure AppRecord where
  name : Option String
  id : Option Int
  health_status : Option String
  reporting : Option Bool
  language : Option String
  application_summary : Option AppSummary
  deriving Repr, DecidableEq

/-- Body of `/applications.json` as `list_applications` reads it;
`applications = none` models an absent `applications` key
(`data.get("applications", [])`). -/
structure ListAppsResponse where
  applications : Option (List AppRecord)
  deriving Repr, DecidableEq

/-- Query parameters built by `list_applications` (a key is present only
when the corresponding filter argument is truthy). -/
structure ListAppsParams where
  filter_name : Option String
  filter_language : Option String
  deriving Repr, DecidableEq

/-- The text appended to `result` for one application record by the loop
body of `list_applications` (lines 88-102 of the source). -/
def format_application (a : AppRecord) : String :=
  let health_status := a.health_status.getD "unknown"
  let reporting := if a.reporting.getD false then "✓" else "✗"
  "• **" ++ a.name.getD "Unknown" ++ "** (ID: " ++ py_opt_int a.id ++ ")\n" ++
  "  - Health: " ++ health_status ++ "\n" ++
  "  - Reporting: " ++ reporting ++ "\n" ++
  "  - Language: " ++ a.language.getD "N/A" ++ "\n" ++
  (match a.application_summary with
    | some summary =>
      "  - Response Time: " ++ summary.response_time.getD "N/A" ++ "ms\n" ++
      "  - Throughput: " ++ summary.throughput.getD "N/A" ++ " rpm\n" ++
      "  - Error Rate: " ++ summary.error_rate.getD "N/A" ++ "%\n"
    | none => "") ++
  "\n"

/-- `list_applications` tool of `newrelic-mcp/server.py`. -/
def list_applications (api_key : Option String)
    (filter_name filter_language : Option String)
    (transport : ListAppsParams → Except String ListAppsResponse) :
    Except String String :=
  .ok (nr_boundary "Error listing applications: " (
    let params : ListAppsParams :=
      { filter_name := py_str_opt filter_name
        filter_language := py_str_opt filter_language }
    match make_request api_key (transport params) with
    | .error e => .error e
    | .ok data =>
      let applications := data.applications.getD []
      if applications.isEmpty then
        .ok "No applications found matching the criteria."
      else
        .ok (applications.foldl (fun acc a => acc ++ format_application a)
          ("Found " ++ toString applications.length ++ " applications:\n\n"))))

/-- `end_user_summary` object of an application detail record. -/
structure EndUserSummary where
  response_time : Option String
  throughput : Option String
  apdex_score : Option String
  deriving Repr, DecidableEq

/-- `settings` object of an application detail record. -/
structure AppSettings where
  app_apdex_threshold : Option String
  end_user_apdex_threshold : Option String
  enable_real_user_monitoring : Option Bool
  deriving Repr, DecidableEq

/-- The `application` record of `/applications/{id}.json`. -/
structure AppDetail where
  name : Option String
  id : Option Int
  health_status : Option String
  reporting : Option Bool
  language : Option String
  last_reported_at : Option String
  application_summary : Option AppSummary
  end_user_summary : Option EndUserSummary
  settings : Option AppSettings
  deriving Repr, DecidableEq

/-- Body of `/applications/{id}.json`; `application = none` models an
absent key or a falsy (empty) record, matching
`app = data.get("application", {})` followed by `if not app:`. -/
structure GetAppResponse where
  application : Option AppDetail
  deriving Repr, DecidableEq

/-- The detail text built by `get_application` for a present application
record (lines 128-159 of the source). -/
def format_app_detail (app : AppDetail) : String :=
  "**Application Details: " ++ app.name.getD "Unknown" ++ "**\n\n" ++
  "- **ID**: " ++ py_opt_int app.id ++ "\n" ++
  "- **Health Status**: " ++ app.health_status.getD "unknown" ++ "\n" ++
  "- **Reporting**: " ++ (if app.reporting.getD false then "Yes" else "No") ++ "\n" ++
  "- **Language**: " ++ app.language.getD "N/A" ++ "\n" ++
  (match py_str_opt app.last_reported_at with
    | some t => "- **Last Reported**: " ++ t ++ "\n"
    | none => "") ++
  (match app.application_summary with
    | some summary =>
      "\n**Performance Summary:**\n" ++
      "- Response Time: " ++ summary.response_time.getD "N/A" ++ "ms\n" ++
      "- Throughput: " ++ summary.throughput.getD "N/A" ++ " rpm\n" ++
      "- Error Rate: " ++ summary.error_rate.getD "N/A" ++ "%\n" ++
      "- Apdex Score: " ++ summary.apdex_score.getD "N/A" ++ "\n"
    | none => "") ++
  (match app.end_user_summary with
    | some eu_summary =>
      "\n**End User Summary:**\n" ++
      "- Response Time: " ++ eu_summary.response_time.getD "N/A" ++ "ms\n" ++
      "- Throughput: " ++ eu_summary.throughput.getD "N/A" ++ " rpm\n" ++
      "- Apdex Score: " ++ eu_summary.apdex_score.getD "N/A" ++ "\n"
    | none => "") ++
  (match app.settings with
    | some settings =>
      "\n**Settings:**\n" ++
      "- App Apdex Threshold: " ++ settings.app_apdex_threshold.getD "N/A" ++ "s\n" ++
      "- End User Apdex Threshold: " ++ settings.end_user_apdex_threshold.getD "N/A" ++ "s\n" ++
      "- Enable Real User Monitoring: " ++
        (if settings.enable_real_user_monitoring.getD false then "Yes" else "No") ++ "\n"
    | none => "")

/-- `get_application` tool of `newrelic-mcp/server.py`; `transport` maps
the application id of the requested path `/applications/{app_id}.json` to
the mocked response. -/
def get_application (api_key : Option String) (app_id : Int)
    (transport : Int → Except String GetAppResponse) : Except String String :=
  .ok (nr_boundary "Error getting application details: " (
    match make_request api_key (transport app_id) with
    | .error e => .error e
    | .ok data =>
      match data.application with
      | none => .ok ("Application with ID " ++ toString app_id ++ " not found.")
      | some app => .ok (format_app_detail app)))

/-- One `timeslices` element of a metric; `values.items()` is carried as
an ordered association list. -/
structure Timeslice where
  fromTime : Option String
  toTime : Option String
  values : Option (List (String × String))
  deriving Repr, DecidableEq

/-- One element of `metric_data.metrics`. -/
structure Metric where
  name : Option String
  timeslices : Option (List Timeslice)
  deriving Repr, DecidableEq

/-- The `metric_data` object; `metrics = none` models an absent `metrics`
key (read with `data["metric_data"]["metrics"]`, a `KeyError` if absent). -/
structure MetricData where
  metrics : Option (List Metric)
  deriving Repr, DecidableEq

/-- Body of `/applications/{id}/metrics/data.json`; `metric_data = none`
models an absent or falsy value, matching `if not data.get("metric_data"):`. -/
structure MetricsResponse where
  metric_data : Option MetricData
  deriving Repr, DecidableEq

/-- Query parameters built by `get_application_metrics`: `names[]`,
`from` and `to`. -/
structure MetricsParams where
  names : List String
  fromTime : String
  toTime : String
  deriving Repr, DecidableEq

/-- The `params` dict built by `get_application_metrics` (lines 180-192).
`now` is the epoch second at which `datetime.utcnow()` is read; the two
separate `utcnow()` calls of the source are modelled as one instant. -/
def metrics_params (metric_names : String) (from_time to_time : Option String)
    (now : Nat) : MetricsParams :=
  { names := metric_names.splitOn ","
    fromTime :=
      match py_str_opt from_time with
      | some f => f
      | none => iso_format (now - 30 * 60)
    toTime :=
      match py_str_opt to_time with
      | some t => t
      | none => iso_format now }

/-- Text appended for one timeslice by the inner loop of
`get_application_metrics` (lines 205-213). -/
def format_timeslice (ts : Timeslice) : String :=
  "  Period: " ++ ts.fromTime.getD "" ++ " to " ++ ts.toTime.getD "" ++ "\n" ++
  joinStrings ((ts.values.getD []).map (fun kv => "    " ++ kv.1 ++ ": " ++ kv.2 ++ "\n")) ++
  "\n"

/-- Text appended for one metric by the outer loop of
`get_application_metrics` (lines 202-213). -/
def format_metric (m : Metric) : String :=
  "**" ++ m.name.getD "Unknown Metric" ++ "**\n" ++
  joinStrings ((m.timeslices.getD []).map format_timeslice)

/-- `get_application_metrics` tool of `newrelic-mcp/server.py`. -/
def get_application_metrics (api_key : Option String) (app_id : Int)
    (metric_names : String) (from_time to_time : Option String) (now : Nat)
    (transport : MetricsParams → Except String MetricsResponse) :
    Except String String :=
  .ok (nr_boundary "Error getting application metrics: " (
    let params := metrics_params metric_names from_time to_time now
    match make_request api_key (transport params) with
    | .error e => .error e
    | .ok data =>
      match data.metric_data with
      | none => .ok ("No metric data found for application " ++ toString app_id ++ ".")
      | some md =>
        match md.metrics with
        | none => .error (.keyError "metrics")
        | some metrics =>
          .ok (metrics.foldl (fun acc m => acc ++ format_metric m)
            ("**Metrics for Application ID " ++ toString app_id ++ "**\n" ++
             "Time Range: " ++ params.fromTime ++ " to " ++ params.toTime ++ "\n\n"))))

/-- The `summary` object of a server record. -/
structure ServerSummary where
  cpu : Option String
  memory : Option String
  disk_io : Option String
  deriving Repr, DecidableEq

/-- One record of the `servers` list of `/servers.json`. -/
structure ServerRecord where
  name : Option String
  id : Option Int
  health_status : Option String
  reporting : Option Bool
  host : Option String
  summary : Option ServerSummary
  deriving Repr, DecidableEq

/-- Body of `/servers.json`; `servers = none` models an absent key. -/
structure ListServersResponse where
  servers : Option (List ServerRecord)
  deriving Repr, DecidableEq

/-- The text appended to `result` for one server record by the loop body
of `list_servers` (lines 237-251). -/
def format_server (s : ServerRecord) : String :=
  let health_status := s.health_status.getD "unknown"
  let reporting := if s.reporting.getD false then "✓" else "✗"
  "• **" ++ s.name.getD "Unknown" ++ "** (ID: " ++ py_opt_int s.id ++ ")\n" ++
  "  - Health: " ++ health_status ++ "\n" ++
  "  - Reporting: " ++ reporting ++ "\n" ++
  "  - Host: " ++ s.host.getD "N/A" ++ "\n" ++
  (match s.summary with
    | some summary =>
      "  - CPU: " ++ summary.cpu.getD "N/A" ++ "%\n" ++
      "  - Memory: " ++ summary.memory.getD "N/A" ++ "%\n" ++
      "  - Disk I/O: " ++ summary.disk_io.getD "N/A" ++ "%\n"
    | none => "") ++
  "\n"

/-- `list_servers` tool of `newrelic-mcp/server.py`. -/
def list_servers (api_key : Option String)
    (transport : Except String ListServersResponse) : Except String String :=
  .ok (nr_boundary "Error listing servers: " (
    match make_request api_key transport with
    | .error e => .error e
    | .ok data =>
      let servers := data.servers.getD []
      if servers.isEmpty then
        .ok "No servers found."
      else
        .ok (servers.foldl (fun acc s => acc ++ format_server s)
          ("Found " ++ toString servers.length ++ " servers:\n\n"))))

/-- One record of the `policies` list of `/alert_policies.json`. -/
structure PolicyRecord where
  name : Option String
  id : Option Int
  incident_preference : Option String
  created_at : Option String
  updated_at : Option String
  deriving Repr, DecidableEq

/-- Body of `/alert_policies.json`; `policies = none` models an absent key. -/
structure ListPoliciesResponse where
  policies : Option (List PolicyRecord)
  deriving Repr, DecidableEq

/-- The text appended to `result` for one alert policy by the loop body of
`get_alert_policies` (lines 275-283). -/
def format_policy (p : PolicyRecord) : String :=
  "• **" ++ p.name.getD "Unknown" ++ "** (ID: " ++ py_opt_int p.id ++ ")\n" ++
  "  - Incident Preference: " ++ p.incident_preference.getD "N/A" ++ "\n" ++
  (match py_str_opt p.created_at with
    | some c => "  - Created: " ++ c ++ "\n"
    | none => "") ++
  (match py_str_opt p.updated_at with
    | some u => "  - Updated: " ++ u ++ "\n"
    | none => "") ++
  "\n"

/-- `get_alert_policies` tool of `newrelic-mcp/server.py`. -/
def get_alert_policies (api_key : Option String)
    (transport : Except String ListPoliciesResponse) : Except String String :=
  .ok (nr_boundary "Error getting alert policies: " (
    match make_request api_key transport with
    | .error e => .error e
    | .ok data =>
      let policies := data.policies.getD []
      if policies.isEmpty then
        .ok "No alert policies found."
      else
        .ok (policies.foldl (fun acc p => acc ++ format_policy p)
          ("Found " ++ toString policies.length ++ " alert policies:\n\n"))))

/-! ## slack-mcp/server.py -/

/-- A failure inside the `try` block of a Slack tool: either a raised
`SlackApiError` carrying `e.response["error"]`, or any other exception. -/
inductive SlackFail where
  | api (err : String)
  | exc (e : PyError)
  deriving Repr, DecidableEq

/-- The pair of `except` clauses wrapped around the body of every Slack
tool: `except SlackApiError as e: return "Slack API error: " +
e.response["error"]` then `except Exception as e: return errMark + str(e)`. -/
def slack_boundary (errMark : String) (body : Except SlackFail String) : String :=
  match body with
  | .ok s => s
  | .error (.api e) => "Slack API error: " ++ e
  | .error (.exc pe) => errMark ++ pyStr pe

/-- `ensure_slack_client` of `slack-mcp/server.py`: raises `ValueError`
when the module-level `slack_client` is `None` (token unset at startup).
Every Slack tool calls this OUTSIDE its `try` block, so the error is the
tool call's escaping exception. -/
def ensure_slack_client (slack_client : Option Unit) : Except String Unit :=
  match slack_client with
  | none => .error
      "Slack client not initialized. Please set SLACK_BOT_TOKEN environment variable."
  | some _ => .ok ()

/-- Arguments of `slack_client.chat_postMessage`. -/
structure PostArgs where
  channel : String
  text : String
  thread_ts : Option String
  deriving Repr, DecidableEq

/-- Mocked `chat_postMessage` response; `ts = none` models an absent `ts`
key (`response["ts"]` raises `KeyError`). -/
structure PostResponse where
  ok : Bool
  ts : Option String
  error : Option String
  deriving Repr, DecidableEq

/-- `send_message` tool of `slack-mcp/server.py`. -/
def send_message (slack_client : Option Unit) (channel text : String)
    (thread_ts : Option String)
    (transport : PostArgs → Except SlackFail PostResponse) :
    Except String String :=
  match ensure_slack_client slack_client with
  | .error m => .error m
  | .ok _ =>
    .ok (slack_boundary "Error sending message: " (
      match transport { channel := channel, text := text, thread_ts := thread_ts } with
      | .error e => .error e
      | .ok response =>
        if response.ok then
          match response.ts with
          | some ts =>
            .ok ("Message sent successfully to " ++ channel ++ ". Timestamp: " ++ ts)
          | none => .error (.exc (.keyError "ts"))
        else
          .ok ("Failed to send message: " ++ response.error.getD "Unknown error")))

/-- `topic` / `purpose` sub-object of a channel record. -/
structure TopicObj where
  value : Option String
  deriving Repr, DecidableEq

/-- One record of the `channels` list of `conversations_list`; `id = none`
models an absent `id` key (`channel["id"]` raises `KeyError`). -/
structure Channel where
  id : Option String
  name : Option String
  is_private : Option Bool
  is_member : Option Bool
  topic : Option TopicObj
  purpose : Option TopicObj
  deriving Repr, DecidableEq

/-- The intermediate dict appended to `channels` for each source record by
`list_channels` (lines 99-107). -/
structure ChannelOut where
  id : String
  name : String
  is_private : Bool
  is_member : Bool
  topic : String
  purpose : String
  deriving Repr, DecidableEq

/-- Builds one intermediate channel dict (lines 100-107); raises
`KeyError` on a record without `id`. -/
def channel_to_out (c : Channel) : Except SlackFail ChannelOut :=
  match c.id with
  | none => .error (.exc (.keyError "id"))
  | some i => .ok
      { id := i
        name := c.name.getD ""
        is_private := c.is_private.getD false
        is_member := c.is_member.getD false
        topic := (c.topic.getD { value := none }).value.getD ""
        purpose := (c.purpose.getD { value := none }).value.getD "" }

/-- The loop of lines 99-107 over the source channel list, in order. -/
def channels_to_out : List Channel → Except SlackFail (List ChannelOut)
  | [] => .ok []
  | c :: rest =>
    match channel_to_out c with
    | .error e => .error e
    | .ok o =>
      match channels_to_out rest with
      | .error e => .error e
      | .ok os => .ok (o :: os)

/-- One line of the comprehension of lines 109-112. -/
def channel_line (ch : ChannelOut) : String :=
  "- #" ++ ch.name ++ " (" ++ ch.id ++ ") - " ++
    (if ch.is_private then "Private" else "Public")

/-- Arguments of `slack_client.conversations_list`. -/
structure ListChannelsArgs where
  types : String
  exclude_archived : Bool
  deriving Repr, DecidableEq

/-- Mocked `conversations_list` response; `channels = none` models an
absent `channels` key (`response["channels"]` raises `KeyError`). -/
structure ChannelsResponse where
  ok : Bool
  channels : Option (List Channel)
  error : Option String
  deriving Repr, DecidableEq

/-- `list_channels` tool of `slack-mcp/server.py`. -/
def list_channels (slack_client : Option Unit) (types : String)
    (transport : ListChannelsArgs → Except SlackFail ChannelsResponse) :
    Except String String :=
  match ensure_slack_client slack_client with
  | .error m => .error m
  | .ok _ =>
    .ok (slack_boundary "Error listing channels: " (
      match transport { types := types, exclude_archived := true } with
      | .error e => .error e
      | .ok response =>
        if response.ok then
          match response.channels with
          | none => .error (.exc (.keyError "channels"))
          | some chs =>
            match channels_to_out chs with
            | .error e => .error e
            | .ok channels =>
              .ok ("Found " ++ toString channels.length ++ " channels:\n" ++
                String.intercalate "\n" (channels.map channel_line))
        else
          .ok ("Failed to list channels: " ++ response.error.getD "Unknown error")))

/-- A `files` list element of a message record. -/
structure FileObj where
  name : Option String
  deriving Repr, DecidableEq

/-- One record of the `messages` list of `conversations_history`.  `ts` is
the whole-second value of `float(msg["ts"])` (the field is required by
the source; a record always carries it). -/
structure Message where
  ts : Nat
  user : Option String
  text : Option String
  subtype : Option String
  bot_id : Option String
  files : Option (List FileObj)
  deriving Repr, DecidableEq

/-- Mocked `conversations_history` response; `messages = none` models an
absent `messages` key. -/
structure HistoryResponse where
  ok : Bool
  messages : Option (List Message)
  error : Option String
  deriving Repr, DecidableEq

/-- The `kwargs` dict built by `get_channel_history` (lines 138-143):
`limit` is capped with `min(limit, 1000)` and the `oldest` key is added
only when the argument is truthy. -/
structure HistoryKwargs where
  channel : String
  limit : Int
  oldest : Option String
  deriving Repr, DecidableEq

/-- Construction of the `kwargs` dict of `get_channel_history`. -/
def history_kwargs (channel : String) (limit : Int) (oldest : Option String) :
    HistoryKwargs :=
  { channel := channel, limit := min limit 1000, oldest := py_str_opt oldest }

/-- The `user` and `text` values of one history message after the
`subtype` adjustments of lines 155-161.  A `file_share` message whose
`files` list is present but empty raises `IndexError` on
`msg.get("files", [{}])[0]`. -/
def history_user_text (m : Message) : Except SlackFail (String × String) :=
  let user := m.user.getD "Unknown"
  let text := m.text.getD ""
  if m.subtype = some "bot_message" then
    Except.ok (m.bot_id.getD "Bot", text)
  else if m.subtype = some "file_share" then
    match (m.files.getD [{ name := none }]).head? with
    | none => Except.error (.exc (.indexError "list index out of range"))
    | some f => Except.ok (user, "[File shared: " ++ f.name.getD "Unknown" ++ "]")
  else
    Except.ok (user, text)

/-- One formatted history line (loop body, lines 153-163): the converted
timestamp of line 154 and the f-string of line 163. -/
def format_history_message (m : Message) : Except SlackFail String :=
  let timestamp := epochToYMDHMS m.ts
  match history_user_text m with
  | .error e => .error e
  | .ok ut => .ok ("[" ++ timestamp ++ "] " ++ ut.1 ++ ": " ++ ut.2)

/-- The formatting loop of lines 152-163 (already applied to the reversed
message list), collecting `formatted_messages` in order. -/
def format_history_messages : List Message → Except SlackFail (List String)
  | [] => .ok []
  | m :: rest =>
    match format_history_message m with
    | .error e => .error e
    | .ok s =>
      match format_history_messages rest with
      | .error e => .error e
      | .ok ss => .ok (s :: ss)

/-- `get_channel_history` tool of `slack-mcp/server.py`. -/
def get_channel_history (slack_client : Option Unit) (channel : String)
    (limit : Int) (oldest : Option String)
    (transport : HistoryKwargs → Except SlackFail HistoryResponse) :
    Except String String :=
  match ensure_slack_client slack_client with
  | .error m => .error m
  | .ok _ =>
    .ok (slack_boundary "Error getting channel history: " (
      match transport (history_kwargs channel limit oldest) with
      | .error e => .error e
      | .ok response =>
        if response.ok then
          match response.messages with
          | none => .error (.exc (.keyError "messages"))
          | some messages =>
            if messages.isEmpty then
              .ok ("No messages found in " ++ channel)
            else
              match format_history_messages messages.reverse with
              | .error e => .error e
              | .ok formatted_messages =>
                .ok ("Message history for " ++ channel ++ " (" ++
                  toString messages.length ++ " messages):\n\n" ++
                  String.intercalate "\n" formatted_messages)
        else
          .ok ("Failed to get channel history: " ++ response.error.getD "Unknown error")))

/-- `profile` sub-object of a user record. -/
structure Profile where
  real_name : Option String
  display_name : Option String
  email : Option String
  title : Option String
  status_text : Option String
  deriving Repr, DecidableEq

/-- The `user` record of `users_info`; `id = none` models an absent `id`
key (`user["id"]` raises `KeyError`). -/
structure User where
  id : Option String
  name : Option String
  tz : Option String
  is_admin : Option Bool
  is_bot : Option Bool
  deleted : Option Bool
  profile : Option Profile
  deriving Repr, DecidableEq

/-- Mocked `users_info` response; `user = none` models an absent `user`
key. -/
structure UserResponse where
  ok : Bool
  user : Option User
  error : Option String
  deriving Repr, DecidableEq

/-- The `info` list of lines built by `get_user_info` (lines 195-207),
given the user's `id` already extracted. -/
def user_info_lines (uid : String) (u : User) : List String :=
  let profile := u.profile.getD ⟨none, none, none, none, none⟩
  [ "User ID: " ++ uid
  , "Name: " ++ u.name.getD "N/A"
  , "Real Name: " ++ profile.real_name.getD "N/A"
  , "Display Name: " ++ profile.display_name.getD "N/A"
  , "Email: " ++ profile.email.getD "N/A"
  , "Title: " ++ profile.title.getD "N/A"
  , "Status: " ++ profile.status_text.getD "N/A"
  , "Timezone: " ++ u.tz.getD "N/A"
  , "Is Admin: " ++ py_bool (u.is_admin.getD false)
  , "Is Bot: " ++ py_bool (u.is_bot.getD false)
  , "Is Deleted: " ++ py_bool (u.deleted.getD false) ]

/-- `get_user_info` tool of `slack-mcp/server.py`. -/
def get_user_info (slack_client : Option Unit) (user_id : String)
    (transport : String → Except SlackFail UserResponse) :
    Except String String :=
  match ensure_slack_client slack_client with
  | .error m => .error m
  | .ok _ =>
    .ok (slack_boundary "Error getting user info: " (
      match transport user_id with
      | .error e => .error e
      | .ok response =>
        if response.ok then
          match response.user with
          | none => .error (.exc (.keyError "user"))
          | some user =>
            match user.id with
            | none => .error (.exc (.keyError "id"))
            | some uid => .ok (String.intercalate "\n" (user_info_lines uid user))
        else
          .ok ("Failed to get user info: " ++ response.error.getD "Unknown error")))

/-- The `channel` sub-object of a search match. -/
structure ChannelRef where
  name : Option String
  deriving Repr, DecidableEq

/-- One record of `messages.matches` of `search_messages`; `ts` as in
`Message`. -/
structure SearchMatch where
  ts : Nat
  channel : Option ChannelRef
  user : Option String
  text : Option String
  deriving Repr, DecidableEq

/-- The `messages` sub-object of the search response; the field models the
`matches` key of the source (`matches` is a Lean keyword, hence the
name), with `none` for an absent key. -/
structure SearchMessages where
  matchList : Option (List SearchMatch)
  deriving Repr, DecidableEq

/-- Mocked `search_messages` response; `messages = none` models an absent
`messages` key (`response["messages"]["matches"]`). -/
structure SearchResponse where
  ok : Bool
  messages : Option SearchMessages
  error : Option String
  deriving Repr, DecidableEq

/-- Arguments of `slack_client.search_messages`: the query and
`min(count, 100)`. -/
structure SearchArgs where
  query : String
  count : Int
  deriving Repr, DecidableEq

/-- One formatted search result line (loop body, lines 245-251). -/
def format_search_match (m : SearchMatch) : String :=
  let channel_name := (m.channel.getD { name := none }).name.getD "Unknown"
  let user := m.user.getD "Unknown"
  let text := m.text.getD ""
  let timestamp := epochToYMDHMS m.ts
  "[" ++ timestamp ++ "] #" ++ channel_name ++ " - " ++ user ++ ": " ++ text

/-- `search_messages` tool of `slack-mcp/server.py`. -/
def search_messages (slack_client : Option Unit) (query : String) (count : Int)
    (transport : SearchArgs → Except SlackFail SearchResponse) :
    Except String String :=
  match ensure_slack_client slack_client with
  | .error m => .error m
  | .ok _ =>
    .ok (slack_boundary "Error searching messages: " (
      match transport { query := query, count := min count 100 } with
      | .error e => .error e
      | .ok response =>
        if response.ok then
          match response.messages with
          | none => .error (.exc (.keyError "messages"))
          | some msgs =>
            match msgs.matchList with
            | none => .error (.exc (.keyError "matches"))
            | some ms =>
              if ms.isEmpty then
                .ok ("No messages found for query: \x27" ++ query ++ "\x27")
              else
                .ok ("Search results for \x27" ++ query ++ "\x27 (" ++
                  toString ms.length ++ " matches):\n\n" ++
                  String.intercalate "\n" (ms.map format_search_match))
        else
          .ok ("Failed to search messages: " ++ response.error.getD "Unknown error")))

end Mcp

/-! ## Helper lemmas -/

namespace Mcp

/-- A Python loop `for x in xs: result += piece(x)` starting from `init`
computes `init` followed by the concatenation of the per-iteration pieces. -/
theorem foldl_append_join (f : α → String) (l : List α) (init : String) :
    l.foldl (fun acc a => acc ++ f a) init = init ++ joinStrings (l.map f) := by
  induction l generalizing init with
  | nil => simp [joinStrings]
  | cons a l ih =>
    simp only [List.foldl_cons, List.map_cons, joinStrings]
    rw [ih, String.append_assoc]

/-- When the history-formatting loop succeeds it yields one line per input
message, in input order. -/
theorem format_history_messages_ok {l : List Message} {ys : List String}
    (h : format_history_messages l = Except.ok ys) :
    ys.length = l.length ∧
    ∀ i (hi : i < l.length) (hy : i < ys.length),
      format_history_message (l.get ⟨i, hi⟩) = Except.ok (ys.get ⟨i, hy⟩) := by
  induction l generalizing ys with
  | nil =>
    simp only [format_history_messages] at h
    cases h
    exact ⟨rfl, fun i hi => absurd hi (by simp)⟩
  | cons m rest ih =>
    rw [format_history_messages] at h
    cases hm : format_history_message m with
    | error e => rw [hm] at h; cases h
    | ok s =>
      rw [hm] at h
      cases hr : format_history_messages rest with
      | error e => rw [hr] at h; cases h
      | ok ss =>
        rw [hr] at h
        cases h
        obtain ⟨hlen, hpt⟩ := ih hr
        refine ⟨by simp [hlen], ?_⟩
        intro i hi hy
        cases i with
        | zero => simpa using hm
        | succ j =>
          simp only [List.get_cons_succ]
          exact hpt j (by simpa using hi) (by simpa using hy)

end Mcp

/-! ## Claim theorems -/

open Mcp

/-- C1 counterexample: with the bot token unset (`slack_client = None`),
a Slack tool call propagates the `ValueError` raised by
`ensure_slack_client` (which runs outside the `try` block) to the
invocation harness instead of returning a string — the claim "every tool
call returns a string and never propagates an exception" is false. -/
theorem C1_counterexample :
    send_message none "general" "hi" none
      (fun _ => Except.ok { ok := true, ts := some "1.0", error := none }) =
    Except.error
      "Slack client not initialized. Please set SLACK_BOT_TOKEN environment variable." :=
  rfl

/-- C1 (amended): every NewRelic tool returns a string to the harness for
every input (its whole body, credential check included, sits inside a
catch-all `try`); every Slack tool returns a string for every input
whenever the Slack client is initialized; with the client uninitialized
every Slack tool instead raises a `ValueError` to the harness. -/
theorem C1_tool_boundary_totality :
    (∀ key fn fl tr, ∃ s, list_applications key fn fl tr = Except.ok s) ∧
    (∀ key i tr, ∃ s, get_application key i tr = Except.ok s) ∧
    (∀ key i names ft tt now tr,
      ∃ s, get_application_metrics key i names ft tt now tr = Except.ok s) ∧
    (∀ key tr, ∃ s, list_servers key tr = Except.ok s) ∧
    (∀ key tr, ∃ s, get_alert_policies key tr = Except.ok s) ∧
    (∀ ch txt th tr, ∃ s, send_message (some ()) ch txt th tr = Except.ok s) ∧
    (∀ ty tr, ∃ s, list_channels (some ()) ty tr = Except.ok s) ∧
    (∀ ch li ol tr, ∃ s, get_channel_history (some ()) ch li ol tr = Except.ok s) ∧
    (∀ uid tr, ∃ s, get_user_info (some ()) uid tr = Except.ok s) ∧
    (∀ q c tr, ∃ s, search_messages (some ()) q c tr = Except.ok s) ∧
    (∀ ch txt th tr, send_message none ch txt th tr = Except.error
      "Slack client not initialized. Please set SLACK_BOT_TOKEN environment variable.") := by
  refine ⟨?_, ?_, ?_, ?_, ?_, ?_, ?_, ?_, ?_, ?_, fun _ _ _ _ => rfl⟩ <;>
    intros <;> exact ⟨_, rfl⟩

/-- C2 counterexample: with the bot token unset, a Slack tool call does
not return the fixed configuration-error string (or any string): it
raises a `ValueError` to the harness. -/
theorem C2_counterexample :
    list_channels none "public_channel,private_channel"
      (fun _ => Except.ok { ok := true, channels := some [], error := none }) =
    Except.error
      "Slack client not initialized. Please set SLACK_BOT_TOKEN environment variable." :=
  rfl

/-- C2 (amended): with the credential unset no network request is
attempted — each tool's result is a constant not depending on the
transport.  Each NewRelic tool returns its own error prefix followed by
the fixed configuration message naming NEWRELIC_API_KEY (an empty-string
key behaves like an unset one); each Slack tool raises a `ValueError`
naming SLACK_BOT_TOKEN. -/
theorem C2_unset_credential :
    (∀ fn fl tr, list_applications none fn fl tr = Except.ok
      "Error listing applications: NewRelic API key not configured. Please set NEWRELIC_API_KEY environment variable.") ∧
    (∀ i tr, get_application none i tr = Except.ok
      "Error getting application details: NewRelic API key not configured. Please set NEWRELIC_API_KEY environment variable.") ∧
    (∀ i names ft tt now tr, get_application_metrics none i names ft tt now tr = Except.ok
      "Error getting application metrics: NewRelic API key not configured. Please set NEWRELIC_API_KEY environment variable.") ∧
    (∀ tr, list_servers none tr = Except.ok
      "Error listing servers: NewRelic API key not configured. Please set NEWRELIC_API_KEY environment variable.") ∧
    (∀ tr, get_alert_policies none tr = Except.ok
      "Error getting alert policies: NewRelic API key not configured. Please set NEWRELIC_API_KEY environment variable.") ∧
    (∀ fn fl tr, list_applications (some "") fn fl tr = Except.ok
      "Error listing applications: NewRelic API key not configured. Please set NEWRELIC_API_KEY environment variable.") ∧
    (∀ ch txt th tr, send_message none ch txt th tr = Except.error
      "Slack client not initialized. Please set SLACK_BOT_TOKEN environment variable.") ∧
    (∀ ty tr, list_channels none ty tr = Except.error
      "Slack client not initialized. Please set SLACK_BOT_TOKEN environment variable.") ∧
    (∀ ch li ol tr, get_channel_history none ch li ol tr = Except.error
      "Slack client not initialized. Please set SLACK_BOT_TOKEN environment variable.") ∧
    (∀ uid tr, get_user_info none uid tr = Except.error
      "Slack client not initialized. Please set SLACK_BOT_TOKEN environment variable.") ∧
    (∀ q c tr, search_messages none q c tr = Except.error
      "Slack client not initialized. Please set SLACK_BOT_TOKEN environment variable.") := by
  refine ⟨?_, ?_, ?_, ?_, ?_, ?_, ?_, ?_, ?_, ?_, ?_⟩ <;> intros <;> rfl

/-- C6: a transport-successful `chat_postMessage` response with `ok:false`
and error field `e` yields exactly the ApplicationError rendering
"Failed to send message: " followed by `e`, never the success rendering. -/
theorem C6_ok_false_is_application_error :
    ∀ (channel text : String) (thread_ts ts : Option String) (e : String),
      send_message (some ()) channel text thread_ts
        (fun _ => Except.ok { ok := false, ts := ts, error := some e }) =
      Except.ok ("Failed to send message: " ++ e) := by
  intros; rfl

/-- C10: a successful `get_application` response whose `application` key
is absent or maps to an empty (falsy) record yields the not-found
message for that id, not an error outcome and not a rendered empty
record. -/
theorem C10_get_application_not_found :
    ∀ (app_id : Int), get_application (some "k") app_id (fun _ => Except.ok ⟨none⟩) =
      Except.ok ("Application with ID " ++ toString app_id ++ " not found.") := by
  intros; rfl

/-- C3 counterexample: a successful `conversations_list` response with an
empty `channels` collection makes `list_channels` return the count
header "Found 0 channels:\n" — the success rendering with a zero count —
not a fixed "no results" sentence. -/
theorem C3_counterexample :
    list_channels (some ()) "public_channel,private_channel"
      (fun _ => Except.ok { ok := true, channels := some [], error := none }) =
    Except.ok "Found 0 channels:\n" := by
  rfl

/-- C3 (amended): each NewRelic tool returns its fixed no-results
sentence when the collection is empty or its top-level key absent (for
metrics the sentence embeds the application id); the Slack history and
search tools return their no-results sentences (embedding the channel or
query) when the collection is present but empty, and an error string when
the top-level key is absent; `list_channels` has no no-results sentence
at all: an empty collection yields the count header "Found 0
channels:\n" and an absent key yields an error string. -/
theorem C3_zero_result_outputs :
    (∀ fn fl, list_applications (some "k") fn fl (fun _ => Except.ok ⟨none⟩) =
      Except.ok "No applications found matching the criteria.") ∧
    (∀ fn fl, list_applications (some "k") fn fl (fun _ => Except.ok ⟨some []⟩) =
      Except.ok "No applications found matching the criteria.") ∧
    (list_servers (some "k") (Except.ok ⟨none⟩) = Except.ok "No servers found.") ∧
    (list_servers (some "k") (Except.ok ⟨some []⟩) = Except.ok "No servers found.") ∧
    (get_alert_policies (some "k") (Except.ok ⟨none⟩) =
      Except.ok "No alert policies found.") ∧
    (get_alert_policies (some "k") (Except.ok ⟨some []⟩) =
      Except.ok "No alert policies found.") ∧
    (∀ (i : Int) (names : String) (now : Nat),
      get_application_metrics (some "k") i names none none now
        (fun _ => Except.ok ⟨none⟩) =
      Except.ok ("No metric data found for application " ++ toString i ++ ".")) ∧
    (∀ ch (li : Int) ol, get_channel_history (some ()) ch li ol
        (fun _ => Except.ok { ok := true, messages := some [], error := none }) =
      Except.ok ("No messages found in " ++ ch)) ∧
    (∀ ch (li : Int) ol, get_channel_history (some ()) ch li ol
        (fun _ => Except.ok { ok := true, messages := none, error := none }) =
      Except.ok "Error getting channel history: \x27messages\x27") ∧
    (∀ q (c : Int), search_messages (some ()) q c
        (fun _ => Except.ok { ok := true, messages := some ⟨some []⟩, error := none }) =
      Except.ok ("No messages found for query: \x27" ++ q ++ "\x27")) ∧
    (∀ q (c : Int), search_messages (some ()) q c
        (fun _ => Except.ok { ok := true, messages := none, error := none }) =
      Except.ok "Error searching messages: \x27messages\x27") ∧
    (∀ ty, list_channels (some ()) ty
        (fun _ => Except.ok { ok := true, channels := some [], error := none }) =
      Except.ok "Found 0 channels:\n") ∧
    (∀ ty, list_channels (some ()) ty
        (fun _ => Except.ok { ok := true, channels := none, error := none }) =
      Except.ok "Error listing channels: \x27channels\x27") := by
  refine ⟨?_, ?_, rfl, rfl, rfl, rfl, ?_, ?_, ?_, ?_, ?_, ?_, ?_⟩ <;> intros <;> rfl

/-- C9 counterexample: two runs of `get_application_metrics` on the same
fixed payload and arguments, with the default (unsupplied) time range,
made at different instants, produce different output strings — the
generated `utcnow` values are embedded in the "Time Range" line. -/
theorem C9_counterexample :
    get_application_metrics (some "k") 1 "Apdex" none none 3600
      (fun _ => Except.ok ⟨some ⟨some []⟩⟩) ≠
    get_application_metrics (some "k") 1 "Apdex" none none 5400
      (fun _ => Except.ok ⟨some ⟨some []⟩⟩) := by
  intro h
  have h1 : get_application_metrics (some "k") 1 "Apdex" none none 3600
      (fun _ => Except.ok ⟨some ⟨some []⟩⟩) =
      Except.ok "**Metrics for Application ID 1**\nTime Range: 1970-01-01T00:30:00 to 1970-01-01T01:00:00\n\n" := rfl
  have h2 : get_application_metrics (some "k") 1 "Apdex" none none 5400
      (fun _ => Except.ok ⟨some ⟨some []⟩⟩) =
      Except.ok "**Metrics for Application ID 1**\nTime Range: 1970-01-01T01:00:00 to 1970-01-01T01:30:00\n\n" := rfl
  rw [h1, h2] at h
  injection h with h'
  exact absurd h' (by decide)

/-- C9 (amended): every tool's output is a pure function of its arguments
and mocked response, so formatting is deterministic; the one source of
run-to-run variation is `get_application_metrics` with a defaulted time
bound, which embeds the current time in its output.  With both bounds
supplied (non-empty), its output is independent of the instant at which
the call runs. -/
theorem C9_metrics_time_independence :
    ∀ (key : Option String) (app_id : Int) (names f t : String),
      f.isEmpty = false → t.isEmpty = false →
      ∀ (now1 now2 : Nat) (tr : MetricsParams → Except String MetricsResponse),
        get_application_metrics key app_id names (some f) (some t) now1 tr =
        get_application_metrics key app_id names (some f) (some t) now2 tr := by
  intro key app_id names f t hf ht now1 now2 tr
  have hp : metrics_params names (some f) (some t) now1 =
      metrics_params names (some f) (some t) now2 := by
    simp [metrics_params, py_str_opt, hf, ht]
  simp only [get_application_metrics]
  rw [hp]

/-- C9 witness: the time-independence theorem applied at a concrete
explicit range and two concrete instants. -/
theorem C9_metrics_time_independence_witness :
    get_application_metrics (some "k") 1 "Apdex" (some "2024-01-01T00:00:00")
      (some "2024-01-01T00:30:00") 3600 (fun _ => Except.ok ⟨some ⟨some []⟩⟩) =
    get_application_metrics (some "k") 1 "Apdex" (some "2024-01-01T00:00:00")
      (some "2024-01-01T00:30:00") 5400 (fun _ => Except.ok ⟨some ⟨some []⟩⟩) :=
  C9_metrics_time_independence (some "k") 1 "Apdex" "2024-01-01T00:00:00"
    "2024-01-01T00:30:00" rfl rfl 3600 5400 (fun _ => Except.ok ⟨some ⟨some []⟩⟩)

/-- C5 counterexample: a channel record without a `name` field is
rendered by `list_channels` with the name as an empty string (between
"#" and the following space), not with a placeholder token — the claim
"never as an empty string" is false. -/
theorem C5_counterexample :
    list_channels (some ()) "public_channel,private_channel"
      (fun _ => Except.ok
        ⟨true, some [⟨some "C1", none, none, none, none, none⟩], none⟩) =
    Except.ok "Found 1 channels:\n- # (C1) - Public" := by
  rfl

/-- C5 (amended): `get_user_info` renders all eleven fields of every
record, substituting "N/A" for absent optional string fields and the
boolean false-rendering "False" for absent boolean fields; `list_channels`
instead renders an absent channel `name` as the empty string (its
intermediate record defaults `name` to `""`). -/
theorem C5_placeholder_fields :
    (∀ (uid : String) (u : User),
      (user_info_lines uid u).length = 11 ∧
      (u.name = none → "Name: N/A" ∈ user_info_lines uid u) ∧
      (u.tz = none → "Timezone: N/A" ∈ user_info_lines uid u) ∧
      (u.is_admin = none → "Is Admin: False" ∈ user_info_lines uid u) ∧
      (u.is_bot = none → "Is Bot: False" ∈ user_info_lines uid u) ∧
      (u.deleted = none → "Is Deleted: False" ∈ user_info_lines uid u) ∧
      (u.profile = none →
        "Real Name: N/A" ∈ user_info_lines uid u ∧
        "Display Name: N/A" ∈ user_info_lines uid u ∧
        "Email: N/A" ∈ user_info_lines uid u ∧
        "Title: N/A" ∈ user_info_lines uid u ∧
        "Status: N/A" ∈ user_info_lines uid u)) ∧
    (∀ (c : Channel) (o : ChannelOut), c.name = none →
      channel_to_out c = Except.ok o → o.name = "") := by
  constructor
  · intro uid u
    refine ⟨by simp [user_info_lines], ?_, ?_, ?_, ?_, ?_, ?_⟩ <;>
      intro h <;> simp [user_info_lines, py_bool, h]
  · intro c o hn h
    cases hc : c.id with
    | none => rw [channel_to_out, hc] at h; cases h
    | some i =>
      rw [channel_to_out, hc] at h
      cases h
      simp [hn]

/-- C5 witness: the placeholder theorem applied to a user record with
every optional field absent and to a channel record without a name. -/
theorem C5_placeholder_fields_witness :
    "Name: N/A" ∈
      user_info_lines "U1" ⟨some "U1", none, none, none, none, none, none⟩ ∧
    "Email: N/A" ∈
      user_info_lines "U1" ⟨some "U1", none, none, none, none, none, none⟩ ∧
    ({ id := "C1", name := "", is_private := false, is_member := false,
       topic := "", purpose := "" } : ChannelOut).name = "" :=
  ⟨(C5_placeholder_fields.1 "U1" ⟨some "U1", none, none, none, none, none, none⟩).2.1 rfl,
   ((C5_placeholder_fields.1 "U1" ⟨some "U1", none, none, none, none, none, none⟩).2.2.2.2.2.2 rfl).2.2.1,
   C5_placeholder_fields.2 ⟨some "C1", none, none, none, none, none⟩ _ rfl rfl⟩

/-- C8: when no explicit (truthy) from/to time is supplied,
`get_application_metrics` requests a window from now minus 30 minutes to
now, both in ISO format; supplied non-empty values are used unchanged;
and the request actually issued is exactly `metrics_params` — the tool's
output depends on the transport only through that parameter value. -/
theorem C8_metrics_default_window :
    ∀ (names : String) (ft tt : Option String) (now : Nat),
      (ft = none → (metrics_params names ft tt now).fromTime = iso_format (now - 1800)) ∧
      (tt = none → (metrics_params names ft tt now).toTime = iso_format now) ∧
      (∀ f, ft = some f → f.isEmpty = false →
        (metrics_params names ft tt now).fromTime = f) ∧
      (∀ t, tt = some t → t.isEmpty = false →
        (metrics_params names ft tt now).toTime = t) ∧
      (∀ (key : Option String) (app_id : Int)
        (tr1 tr2 : MetricsParams → Except String MetricsResponse),
        tr1 (metrics_params names ft tt now) = tr2 (metrics_params names ft tt now) →
        get_application_metrics key app_id names ft tt now tr1 =
        get_application_metrics key app_id names ft tt now tr2) := by
  intro names ft tt now
  refine ⟨?_, ?_, ?_, ?_, ?_⟩
  · intro h; subst h; simp [metrics_params, py_str_opt]
  · intro h; subst h; simp [metrics_params, py_str_opt]
  · intro f hf hfe; subst hf; simp [metrics_params, py_str_opt, hfe]
  · intro t ht hte; subst ht; simp [metrics_params, py_str_opt, hte]
  · intro key app_id tr1 tr2 h
    simp only [get_application_metrics]
    rw [h]

/-- C8 witness: the default-window theorem applied at a concrete instant
and concrete explicit bounds. -/
theorem C8_metrics_default_window_witness :
    (metrics_params "Apdex" none none 3600).fromTime = iso_format 1800 ∧
    (metrics_params "Apdex" none none 3600).toTime = iso_format 3600 ∧
    (metrics_params "Apdex" (some "A") (some "B") 3600).fromTime = "A" ∧
    (metrics_params "Apdex" (some "A") (some "B") 3600).toTime = "B" ∧
    get_application_metrics (some "k") 1 "Apdex" none none 3600
      (fun _ => Except.ok ⟨none⟩) =
    get_application_metrics (some "k") 1 "Apdex" none none 3600
      (fun _ => Except.ok ⟨none⟩) :=
  ⟨(C8_metrics_default_window "Apdex" none none 3600).1 rfl,
   (C8_metrics_default_window "Apdex" none none 3600).2.1 rfl,
   (C8_metrics_default_window "Apdex" (some "A") (some "B") 3600).2.2.1 "A" rfl rfl,
   (C8_metrics_default_window "Apdex" (some "A") (some "B") 3600).2.2.2.1 "B" rfl rfl,
   (C8_metrics_default_window "Apdex" none none 3600).2.2.2.2 (some "k") 1
     (fun _ => Except.ok ⟨none⟩) (fun _ => Except.ok ⟨none⟩) rfl⟩

/-- C4: a successful list response with N >= 1 records yields a header
stating "Found N ..." followed by exactly one rendered block per record,
in payload order (shown for the two cited tools, `list_applications` and
`list_servers`). -/
theorem C4_found_header_and_blocks :
    ∀ (k : String), k.isEmpty = false →
    ∀ (fn fl : Option String) (apps : List AppRecord), apps ≠ [] →
    ∀ (srvs : List ServerRecord), srvs ≠ [] →
      list_applications (some k) fn fl (fun _ => Except.ok ⟨some apps⟩) =
        Except.ok (("Found " ++ toString apps.length ++ " applications:\n\n") ++
          joinStrings (apps.map format_application)) ∧
      (apps.map format_application).length = apps.length ∧
      list_servers (some k) (Except.ok ⟨some srvs⟩) =
        Except.ok (("Found " ++ toString srvs.length ++ " servers:\n\n") ++
          joinStrings (srvs.map format_server)) ∧
      (srvs.map format_server).length = srvs.length := by
  intro k hk fn fl apps ha srvs hs
  have he : ensure_api_key (some k) = Except.ok () := by
    simp [ensure_api_key, py_str_opt, hk]
  have hae : apps.isEmpty = false := by
    cases apps with
    | nil => exact absurd rfl ha
    | cons a l => rfl
  have hse : srvs.isEmpty = false := by
    cases srvs with
    | nil => exact absurd rfl hs
    | cons s l => rfl
  refine ⟨?_, by simp, ?_, by simp⟩
  · simp [list_applications, make_request, he, nr_boundary, hae, foldl_append_join]
  · simp [list_servers, make_request, he, nr_boundary, hse, foldl_append_join]

/-- C4 witness: the header-and-blocks theorem applied to one-record
application and server payloads. -/
theorem C4_found_header_and_blocks_witness :
    list_applications (some "k") none none (fun _ => Except.ok
        ⟨some [⟨some "app1", some 42, some "green", some true, some "python", none⟩]⟩) =
      Except.ok (("Found " ++
        toString [(⟨some "app1", some 42, some "green", some true, some "python", none⟩ : AppRecord)].length ++
        " applications:\n\n") ++
        joinStrings ([(⟨some "app1", some 42, some "green", some true, some "python", none⟩ : AppRecord)].map format_application)) ∧
    ([(⟨some "app1", some 42, some "green", some true, some "python", none⟩ : AppRecord)].map format_application).length =
      [(⟨some "app1", some 42, some "green", some true, some "python", none⟩ : AppRecord)].length ∧
    list_servers (some "k") (Except.ok
        ⟨some [⟨some "srv1", some 7, some "green", some false, some "h1", none⟩]⟩) =
      Except.ok (("Found " ++
        toString [(⟨some "srv1", some 7, some "green", some false, some "h1", none⟩ : ServerRecord)].length ++
        " servers:\n\n") ++
        joinStrings ([(⟨some "srv1", some 7, some "green", some false, some "h1", none⟩ : ServerRecord)].map format_server)) ∧
    ([(⟨some "srv1", some 7, some "green", some false, some "h1", none⟩ : ServerRecord)].map format_server).length =
      [(⟨some "srv1", some 7, some "green", some false, some "h1", none⟩ : ServerRecord)].length :=
  C4_found_header_and_blocks "k" rfl none none
    [⟨some "app1", some 42, some "green", some true, some "python", none⟩]
    (List.cons_ne_nil _ _)
    [⟨some "srv1", some 7, some "green", some false, some "h1", none⟩]
    (List.cons_ne_nil _ _)

/-- C7: `get_channel_history` requests upstream the given limit capped at
1000; on success the formatted lines are the upstream messages in
reversed (oldest-first) order — line i of the output corresponds to
upstream message N-1-i — and every line is prefixed with the message's
epoch timestamp converted to a "YYYY-MM-DD HH:MM:SS" string. -/
theorem C7_history_cap_reverse_timestamps :
    (∀ (c : String) (l : Int) (o : Option String),
      (l ≤ 1000 → (history_kwargs c l o).limit = l) ∧
      ((1000:Int) ≤ l → (history_kwargs c l o).limit = 1000)) ∧
    (∀ (c : String) (l : Int) (o : Option String) (ms : List Message)
       (lines : List String),
      format_history_messages ms.reverse = Except.ok lines → ms ≠ [] →
      get_channel_history (some ()) c l o (fun _ => Except.ok ⟨true, some ms, none⟩) =
        Except.ok ("Message history for " ++ c ++ " (" ++ toString ms.length ++
          " messages):\n\n" ++ String.intercalate "\n" lines) ∧
      lines.length = ms.length ∧
      (∀ i (hi : i < ms.length) (hy : i < lines.length),
        format_history_message (ms.get ⟨ms.length - 1 - i, by omega⟩) =
          Except.ok (lines.get ⟨i, hy⟩))) ∧
    (∀ (m : Message) (ut : String × String), history_user_text m = Except.ok ut →
      format_history_message m =
        Except.ok ("[" ++ epochToYMDHMS m.ts ++ "] " ++ (ut.1 ++ ": " ++ ut.2))) := by
  refine ⟨?_, ?_, ?_⟩
  · intro c l o
    constructor
    · intro h; simp [history_kwargs]; exact h
    · intro h; simp [history_kwargs]; exact h
  · intro c l o ms lines h1 h2
    have hme : ms.isEmpty = false := by
      cases ms with | nil => exact absurd rfl h2 | cons m r => rfl
    obtain ⟨hlen, hpt⟩ := format_history_messages_ok h1
    refine ⟨?_, by simpa using hlen, ?_⟩
    · simp [get_channel_history, ensure_slack_client, slack_boundary, hme, h1]
    · intro i hi hy
      have hi' : i < ms.reverse.length := by simpa using hi
      have hx := hpt i hi' hy
      rwa [List.get_reverse' ms ⟨i, hi'⟩ (by simp; omega)] at hx
  · intro m ut h
    simp [format_history_message, h, String.append_assoc]

/-- C7 witness: the history theorem applied to a two-message payload (a
message at epoch 100 delivered first, one at epoch 50 second): the cap
at both sides of 1000, the reversed output, the index correspondence at
i = 0, and the timestamp prefix of one line. -/
theorem C7_history_cap_reverse_timestamps_witness :
    (history_kwargs "C" 5 none).limit = 5 ∧
    (history_kwargs "C" 2000 none).limit = 1000 ∧
    get_channel_history (some ()) "C" 5 none (fun _ => Except.ok
        ⟨true, some [⟨100, some "alice", some "later", none, none, none⟩,
          ⟨50, some "bob", some "earlier", none, none, none⟩], none⟩) =
      Except.ok ("Message history for " ++ "C" ++ " (" ++
        toString [(⟨100, some "alice", some "later", none, none, none⟩ : Message),
          ⟨50, some "bob", some "earlier", none, none, none⟩].length ++
        " messages):\n\n" ++ String.intercalate "\n"
          ["[1970-01-01 00:00:50] bob: earlier", "[1970-01-01 00:01:40] alice: later"]) ∧
    format_history_message
        ([(⟨100, some "alice", some "later", none, none, none⟩ : Message),
          ⟨50, some "bob", some "earlier", none, none, none⟩].get ⟨1, by decide⟩) =
      Except.ok (["[1970-01-01 00:00:50] bob: earlier",
        "[1970-01-01 00:01:40] alice: later"].get ⟨0, by decide⟩) ∧
    format_history_message (⟨100, some "alice", some "later", none, none, none⟩ : Message) =
      Except.ok ("[" ++ epochToYMDHMS 100 ++ "] " ++ ("alice" ++ ": " ++ "later")) :=
  ⟨(C7_history_cap_reverse_timestamps.1 "C" 5 none).1 (by decide),
   (C7_history_cap_reverse_timestamps.1 "C" 2000 none).2 (by decide),
   (C7_history_cap_reverse_timestamps.2.1 "C" 5 none
      [⟨100, some "alice", some "later", none, none, none⟩,
       ⟨50, some "bob", some "earlier", none, none, none⟩]
      ["[1970-01-01 00:00:50] bob: earlier", "[1970-01-01 00:01:40] alice: later"]
      rfl (List.cons_ne_nil _ _)).1,
   (C7_history_cap_reverse_timestamps.2.1 "C" 5 none
      [⟨100, some "alice", some "later", none, none, none⟩,
       ⟨50, some "bob", some "earlier", none, none, none⟩]
      ["[1970-01-01 00:00:50] bob: earlier", "[1970-01-01 00:01:40] alice: later"]
      rfl (List.cons_ne_nil _ _)).2.2 0 (by decide) (by decide),
   C7_history_cap_reverse_timestamps.2.2
     ⟨100, some "alice", some "later", none, none, none⟩ ("alice", "later") rfl⟩
